import Mathlib

/-!
Verification of the geoviz-3d excavation configurator (src/types.ts).

The file shallowly embeds the parts of the source that the verified
properties are about:

* the dimension & area model (`surfaces`, `totalArea`, `sfidoData`,
  `totalAreaConSfido`, lines 71-128 of the sfido variant of the app);
* the isometric projector `toIso` (lines 391-393 and 969-973);
* the page-1 scale computation (lines 170-192), modelled over `JsNum`,
  an exact-rational model of IEEE double values extended with the
  infinities and NaN, because the divide-by-zero / 0 * Infinity behaviour
  of JavaScript numbers is the subject of the degenerate-input property;
* the PDF export `handleExportPDF` of the sfido variant (lines 131-535),
  modelled as the list of drawing operations it emits (`PdfOp`).

Modelling conventions for the operation trace:
* JavaScript numbers are modelled as exact rationals; the float-specific
  degenerate behaviour is treated separately via `JsNum`.
* The page-1 scale factor (a float computation) is passed to the trace as
  an abstract rational parameter `scale`; its own computation is modelled
  by `p1Scale` over `JsNum`.
* Pure state-setting cosmetics (fonts, stroke colors, dash patterns) are
  not recorded; the fill color active at each filled draw call is recorded
  on the op itself, mirroring the `setFillColor` immediately preceding it
  in the source.
* Text content is abstracted to a `TextTag` naming the call site; numeric
  payloads of template literals are not modelled (no property reads them).
* jsPDF reports an A4 page as 210mm x 297mm (the exact jsPDF value differs
  from 210 by less than 2/1000 mm; only positivity matters anywhere below).
-/

namespace GeoViz

/-- `ExcavationDimensions` (src/types.ts lines 17-22, sfido variant):
length, width, depth and the sfido overlap allowance, in meters. -/
structure ExcavationDimensions where
  length : ℚ
  width : ℚ
  depth : ℚ
  sfido : ℚ
deriving DecidableEq

/-- `SurfaceData` (src/types.ts lines 30-38): one derived surface record.
The formatted `dimensions` label strings are not modelled (no verified
property reads them). -/
structure SurfaceData where
  id : String
  label : String
  area : ℚ
  color : String
deriving DecidableEq

/-- The `surfaces` memo (lines 71-97): the three derived surface records. -/
def surfaces (dims : ExcavationDimensions) (bottom sidesLong sidesShort : String) :
    List SurfaceData :=
  [ { id := "bottom", label := "Superficie Inferiore (Base)",
      area := dims.length * dims.width, color := bottom },
    { id := "sides_long", label := "Pareti Laterali Lunghe (x2)",
      area := dims.length * dims.depth, color := sidesLong },
    { id := "sides_short", label := "Pareti Laterali Corte (x2)",
      area := dims.width * dims.depth, color := sidesShort } ]

/-- The `totalArea` memo (lines 100-105): `surfaces.reduce` counting the
bottom once and each wall pair twice. -/
def totalArea (dims : ExcavationDimensions) (bottom sidesLong sidesShort : String) : ℚ :=
  (surfaces dims bottom sidesLong sidesShort).foldl
    (fun acc s => if s.id = "bottom" then acc + s.area else acc + s.area * 2) 0

/-- The record returned by the `sfidoData` memo (lines 108-123). -/
structure SfidoData where
  sfidoLunghe : ℚ
  sfidoCorte : ℚ
  totale : ℚ
  sfido : ℚ
deriving DecidableEq

/-- The `sfidoData` memo (lines 108-123): overlap strip areas. -/
def sfidoData (dims : ExcavationDimensions) : SfidoData :=
  { sfidoLunghe := dims.length * dims.sfido * 2,
    sfidoCorte := dims.width * dims.sfido * 2,
    totale := dims.length * dims.sfido * 2 + dims.width * dims.sfido * 2,
    sfido := dims.sfido }

/-- The `totalAreaConSfido` memo (lines 126-128). -/
def totalAreaConSfido (dims : ExcavationDimensions)
    (bottom sidesLong sidesShort : String) : ℚ :=
  totalArea dims bottom sidesLong sidesShort + (sfidoData dims).totale

/-- `bottomArea` as computed in `handleExportPDF` (line 149). -/
def bottomArea (l w : ℚ) : ℚ := l * w

/-- `sideLongArea` as computed in `handleExportPDF` (line 150). -/
def sideLongArea (l d : ℚ) : ℚ := l * d

/-- `sideShortArea` as computed in `handleExportPDF` (line 151). -/
def sideShortArea (w d : ℚ) : ℚ := w * d

/-- The isometric projector `toIso` (lines 391-393 and 969-973):
`[centerX + (x - z) * cos30, centerY - y + (x + z) * sin30]`.
`c30`/`s30` are the values the source stores in `cos30 = Math.cos(PI/6)`
and `sin30 = Math.sin(PI/6)`; they are parameters so the definition can be
used both executably over `ℚ` and with the exact real cosine and sine. -/
def toIso {R : Type} [CommRing R] (c30 s30 cx cy x y z : R) : R × R :=
  (cx + (x - z) * c30, cy - y + (x + z) * s30)

/-- C1: for all `length, width, depth ≥ 0` the derived surface areas are
`length*width`, `length*depth`, `width*depth`, and `totalArea` equals
`bottomArea + 2*longWallArea + 2*shortWallArea`. -/
theorem c1_area_correctness (l w d s : ℚ) (cb cl cs : String)
    (h1 : 0 ≤ l) (h2 : 0 ≤ w) (h3 : 0 ≤ d) :
    (surfaces ⟨l, w, d, s⟩ cb cl cs).map SurfaceData.area = [l * w, l * d, w * d] ∧
    bottomArea l w = l * w ∧ sideLongArea l d = l * d ∧ sideShortArea w d = w * d ∧
    totalArea ⟨l, w, d, s⟩ cb cl cs =
      bottomArea l w + 2 * sideLongArea l d + 2 * sideShortArea w d := by
  refine ⟨rfl, rfl, rfl, rfl, ?_⟩
  simp [totalArea, surfaces, bottomArea, sideLongArea, sideShortArea]
  ring

/-- C1 witness at the spec's standard box 4 x 3 x 2.5. -/
theorem c1_area_correctness_witness :
    (0:ℚ) ≤ 4 ∧ (0:ℚ) ≤ 3 ∧ (0:ℚ) ≤ 5/2 ∧
    ((surfaces ⟨4, 3, 5/2, 0⟩ "#3b82f6" "#ef4444" "#10b981").map SurfaceData.area =
        [4 * 3, 4 * (5/2), 3 * (5/2)] ∧
      bottomArea 4 3 = 4 * 3 ∧ sideLongArea 4 (5/2) = 4 * (5/2) ∧
      sideShortArea 3 (5/2) = 3 * (5/2) ∧
      totalArea ⟨4, 3, 5/2, 0⟩ "#3b82f6" "#ef4444" "#10b981" =
        bottomArea 4 3 + 2 * sideLongArea 4 (5/2) + 2 * sideShortArea 3 (5/2)) :=
  ⟨by norm_num, by norm_num, by norm_num,
    c1_area_correctness 4 3 (5/2) 0 "#3b82f6" "#ef4444" "#10b981"
      (by norm_num) (by norm_num) (by norm_num)⟩

/-- C2: for all `length, width ≥ 0` and `sfido ≥ 0` the overlap summary
satisfies `sfidoLunghe = length*sfido*2`, `sfidoCorte = width*sfido*2`,
`totale` is their sum, and `totalAreaConSfido = totalArea + totale`. -/
theorem c2_overlap_correctness (l w d s : ℚ) (cb cl cs : String)
    (h1 : 0 ≤ l) (h2 : 0 ≤ w) (hs : 0 ≤ s) :
    (sfidoData ⟨l, w, d, s⟩).sfidoLunghe = l * s * 2 ∧
    (sfidoData ⟨l, w, d, s⟩).sfidoCorte = w * s * 2 ∧
    (sfidoData ⟨l, w, d, s⟩).totale =
      (sfidoData ⟨l, w, d, s⟩).sfidoLunghe + (sfidoData ⟨l, w, d, s⟩).sfidoCorte ∧
    totalAreaConSfido ⟨l, w, d, s⟩ cb cl cs =
      totalArea ⟨l, w, d, s⟩ cb cl cs + (sfidoData ⟨l, w, d, s⟩).totale := by
  exact ⟨rfl, rfl, rfl, rfl⟩

/-- C2 witness at the spec's overlap scenario 4 x 3 x 2.5 with sfido 0.2. -/
theorem c2_overlap_correctness_witness :
    (0:ℚ) ≤ 4 ∧ (0:ℚ) ≤ 3 ∧ (0:ℚ) ≤ 1/5 ∧
    ((sfidoData ⟨4, 3, 5/2, 1/5⟩).sfidoLunghe = 4 * (1/5) * 2 ∧
      (sfidoData ⟨4, 3, 5/2, 1/5⟩).sfidoCorte = 3 * (1/5) * 2 ∧
      (sfidoData ⟨4, 3, 5/2, 1/5⟩).totale =
        (sfidoData ⟨4, 3, 5/2, 1/5⟩).sfidoLunghe + (sfidoData ⟨4, 3, 5/2, 1/5⟩).sfidoCorte ∧
      totalAreaConSfido ⟨4, 3, 5/2, 1/5⟩ "#3b82f6" "#ef4444" "#10b981" =
        totalArea ⟨4, 3, 5/2, 1/5⟩ "#3b82f6" "#ef4444" "#10b981" +
          (sfidoData ⟨4, 3, 5/2, 1/5⟩).totale) :=
  ⟨by norm_num, by norm_num, by norm_num,
    c2_overlap_correctness 4 3 (5/2) (1/5) "#3b82f6" "#ef4444" "#10b981"
      (by norm_num) (by norm_num) (by norm_num)⟩

/-- C4: with the fixed 30-degree angle, `toIso` maps the origin to the
center, maps `(1,0,0)` to `(cx + cos 30°, cy + sin 30°)`, and in general
computes `(cx + (x - z)·cos 30°, cy - y + (x + z)·sin 30°)`. -/
theorem c4_projection_points (cx cy x y z : ℝ) :
    toIso (Real.cos (Real.pi / 6)) (Real.sin (Real.pi / 6)) cx cy 0 0 0 = (cx, cy) ∧
    toIso (Real.cos (Real.pi / 6)) (Real.sin (Real.pi / 6)) cx cy 1 0 0 =
      (cx + Real.cos (Real.pi / 6), cy + Real.sin (Real.pi / 6)) ∧
    toIso (Real.cos (Real.pi / 6)) (Real.sin (Real.pi / 6)) cx cy x y z =
      (cx + (x - z) * Real.cos (Real.pi / 6),
        cy - y + (x + z) * Real.sin (Real.pi / 6)) := by
  refine ⟨?_, ?_, rfl⟩ <;> simp [toIso]

/-- A JavaScript number for the exact fragment relevant here: an exact
rational, one of the two infinities, or NaN. The arithmetic below follows
the IEEE-754 / JavaScript rules for these values (division by zero gives a
signed infinity, `0/0` and `0 * Infinity` give NaN, NaN propagates, and
`Math.min` returns NaN when either argument is NaN). Rounding of finite
results is not modelled: it cannot turn a finite value into NaN or an
infinity for the operations used by the scale computation. -/
inductive JsNum where
  | num (q : ℚ)
  | posInf
  | negInf
  | nan
deriving DecidableEq

namespace JsNum

/-- IEEE negation. -/
def neg : JsNum → JsNum
  | num q => num (-q)
  | posInf => negInf
  | negInf => posInf
  | nan => nan

/-- IEEE addition on this fragment. -/
def add : JsNum → JsNum → JsNum
  | nan, _ => nan
  | _, nan => nan
  | num a, num b => num (a + b)
  | num _, posInf => posInf
  | num _, negInf => negInf
  | posInf, num _ => posInf
  | negInf, num _ => negInf
  | posInf, posInf => posInf
  | negInf, negInf => negInf
  | posInf, negInf => nan
  | negInf, posInf => nan

/-- IEEE subtraction: `a - b = a + (-b)`. -/
def sub (a b : JsNum) : JsNum := add a (neg b)

/-- IEEE multiplication on this fragment; `0 * Infinity = NaN`. -/
def mul : JsNum → JsNum → JsNum
  | nan, _ => nan
  | _, nan => nan
  | num a, num b => num (a * b)
  | num a, posInf => if 0 < a then posInf else if a < 0 then negInf else nan
  | num a, negInf => if 0 < a then negInf else if a < 0 then posInf else nan
  | posInf, num b => if 0 < b then posInf else if b < 0 then negInf else nan
  | negInf, num b => if 0 < b then negInf else if b < 0 then posInf else nan
  | posInf, posInf => posInf
  | negInf, negInf => posInf
  | posInf, negInf => negInf
  | negInf, posInf => negInf

/-- IEEE division on this fragment; a nonzero finite value divided by
(positive) zero gives a signed infinity and `0/0` gives NaN. The source
only ever divides by values produced as sums of nonnegative inputs, so
the zero denominator is JavaScript's `+0`. -/
def div : JsNum → JsNum → JsNum
  | nan, _ => nan
  | _, nan => nan
  | num a, num b =>
      if b = 0 then (if 0 < a then posInf else if a < 0 then negInf else nan)
      else num (a / b)
  | num _, posInf => num 0
  | num _, negInf => num 0
  | posInf, num b => if b < 0 then negInf else posInf
  | negInf, num b => if b < 0 then posInf else negInf
  | posInf, posInf => nan
  | posInf, negInf => nan
  | negInf, posInf => nan
  | negInf, negInf => nan

/-- `Math.min`: NaN if either argument is NaN, otherwise the smaller value
with the infinities ordered as usual. -/
def jsMin : JsNum → JsNum → JsNum
  | nan, _ => nan
  | _, nan => nan
  | num a, num b => num (min a b)
  | num a, posInf => num a
  | num _, negInf => negInf
  | posInf, num b => num b
  | negInf, num _ => negInf
  | posInf, posInf => posInf
  | negInf, negInf => negInf
  | posInf, negInf => negInf
  | negInf, posInf => negInf

end JsNum

/-- jsPDF A4 page width in millimeters (see the file header note). -/
def pageWidthMM : ℚ := 210

/-- Page-1 margin of the sfido variant (line 135). -/
def marginP1 : ℚ := 12

/-- `drawAreaWidth = pageWidth - margin * 2` (line 173). -/
def drawAreaWidth : ℚ := pageWidthMM - marginP1 * 2

/-- `drawAreaHeight` (line 174). -/
def drawAreaHeight : ℚ := 160

/-- `totalLayoutWidth = (sfido*2) + depth + length + depth + (sfido*2)`
(line 170). -/
def totalLayoutWidth (l d s : ℚ) : ℚ := s * 2 + d + l + d + s * 2

/-- `totalLayoutHeight = (sfido*2) + depth + width + depth + (sfido*2)`
(line 171). -/
def totalLayoutHeight (w d s : ℚ) : ℚ := s * 2 + d + w + d + s * 2

/-- `scaleX = drawAreaWidth / totalLayoutWidth` (line 176), as a
JavaScript-number computation. -/
def p1ScaleX (l d s : ℚ) : JsNum :=
  JsNum.div (JsNum.num drawAreaWidth) (JsNum.num (totalLayoutWidth l d s))

/-- `scaleY = drawAreaHeight / totalLayoutHeight` (line 177). -/
def p1ScaleY (w d s : ℚ) : JsNum :=
  JsNum.div (JsNum.num drawAreaHeight) (JsNum.num (totalLayoutHeight w d s))

/-- `scale = Math.min(scaleX, scaleY) * 0.85` (line 178). -/
def p1Scale (l w d s : ℚ) : JsNum :=
  JsNum.mul (JsNum.jsMin (p1ScaleX l d s) (p1ScaleY w d s)) (JsNum.num (85/100))

/-- `sLength = length * scale` (line 181). -/
def p1SLength (l w d s : ℚ) : JsNum := JsNum.mul (JsNum.num l) (p1Scale l w d s)

/-- `baseX = centerX - sLength / 2` with `centerX = pageWidth / 2`
(lines 187 and 191); a coordinate later passed to `pdf.rect`. -/
def p1BaseX (l w d s : ℚ) : JsNum :=
  JsNum.sub (JsNum.num (pageWidthMM / 2)) (JsNum.div (p1SLength l w d s) (JsNum.num 2))

/-- C3 (code bug evidence): at the degenerate input
`length = width = depth = sfido = 0` the layout scale computation divides
by a zero raw layout size with no fallback: the scale is `+Infinity`, the
scaled length `0 * Infinity` is NaN, and the page coordinate `baseX`
passed to the drawing calls is NaN — contradicting the required safe
default and finite coordinates. -/
theorem c3_zero_layout_divides :
    p1Scale 0 0 0 0 = JsNum.posInf ∧
    p1SLength 0 0 0 0 = JsNum.nan ∧
    p1BaseX 0 0 0 0 = JsNum.nan := by
  have h1 : p1Scale 0 0 0 0 = JsNum.posInf := by
    norm_num [p1Scale, p1ScaleX, p1ScaleY, totalLayoutWidth, totalLayoutHeight,
      drawAreaWidth, drawAreaHeight, pageWidthMM, marginP1, JsNum.div, JsNum.jsMin,
      JsNum.mul]
  have h2 : p1SLength 0 0 0 0 = JsNum.nan := by
    norm_num [p1SLength, h1, JsNum.mul]
  refine ⟨h1, h2, ?_⟩
  norm_num [p1BaseX, h2, JsNum.div, JsNum.sub, JsNum.add, JsNum.neg]

/-- A parsed fill color: one `Option ℤ` per RGB channel, `none` standing
for NaN (a channel whose `parseInt` failed). -/
abbrev Rgb := Option ℤ × Option ℤ × Option ℤ

/-- Hex digit value of a character, by code point (48-57 are `0`-`9`,
97-102 are `a`-`f`, 65-70 are `A`-`F`); `none` for a non-hex character. -/
def hexVal (ch : Char) : Option ℕ :=
  if 48 ≤ ch.toNat ∧ ch.toNat ≤ 57 then some (ch.toNat - 48)
  else if 97 ≤ ch.toNat ∧ ch.toNat ≤ 102 then some (ch.toNat - 97 + 10)
  else if 65 ≤ ch.toNat ∧ ch.toNat ≤ 70 then some (ch.toNat - 65 + 10)
  else none

/-- JavaScript `parseInt(s, 16)`: parse the longest leading run of hex
digits, NaN (`none`) when there is none. (The `0x` prefix, sign and
leading-whitespace handling of `parseInt` cannot arise from the 2-char
slices of the color strings considered here and are not modelled.) -/
def parseIntHex (cs : List Char) : Option ℤ :=
  match cs.takeWhile (fun ch => (hexVal ch).isSome) with
  | [] => none
  | ds => some (ds.foldl (fun acc ch => acc * 16 + (((hexVal ch).getD 0 : ℕ) : ℤ)) 0)

/-- `color.slice(i, i+2)` of the source, as the character list. -/
def slicePair (c : String) (i : ℕ) : List Char := (c.toList.drop i).take 2

/-- The inline color decomposition repeated at every draw call of the
source: `parseInt(color.slice(1,3),16)`, `…(3,5)…`, `…(5,7)…`. -/
def colorChannels (c : String) : Rgb :=
  (parseIntHex (slicePair c 1), parseIntHex (slicePair c 3), parseIntHex (slicePair c 5))

/-- `Math.min(255, v + delta)` per channel (lines 430/433); `none` (NaN)
propagates, as `Math.min(255, NaN)` is NaN. -/
def lighten (delta : ℤ) (rgb : Rgb) : Rgb :=
  (rgb.1.map (fun v => min 255 (v + delta)),
   rgb.2.1.map (fun v => min 255 (v + delta)),
   rgb.2.2.map (fun v => min 255 (v + delta)))

/-- `Math.max(0, v - delta)` per channel (lines 454/457). -/
def darken (delta : ℤ) (rgb : Rgb) : Rgb :=
  (rgb.1.map (fun v => max 0 (v - delta)),
   rgb.2.1.map (fun v => max 0 (v - delta)),
   rgb.2.2.map (fun v => max 0 (v - delta)))

/-- A color string of the documented shape: `#` followed by exactly 6 hex
digits. -/
def wellFormedColor (c : String) : Bool :=
  (c.toList.length == 7) && (c.toList.headD ' ' == '#') &&
    (c.toList.drop 1).all (fun ch => (hexVal ch).isSome)

/-- Names for the text calls of `handleExportPDF` (sfido variant); text
content is abstracted to the call site, numeric payloads are not modelled. -/
inductive TextTag where
  | titolo1 | data1
  | lblBase | lblParLunga | lblPCorta | surfArea
  | sfidoStripLbl
  | riepilogo | colSuperficie | colDimensioni | colArea | colQta | colTotale
  | rowBase | rowParLunghe | rowParCorte | rowDims | rowArea | rowQty | rowTot
  | subtotLbl | subtotVal
  | sfidoHeader | sfidoLunghe | sfidoCorte | sfidoTotale
  | totLine | totLbl | totVal | footer1
  | titolo2 | data2
  | legenda | legBase | legParLunghe | legParCorte | legSfido | legArea
  | dimScavo | dimLWD | volume | totTNT2 | footer2
deriving DecidableEq

/-- One drawing operation of the export. `rectF`/`rectFD`/`roundedRectF`
carry the fill color set immediately before them in the source;
`rectS` is a stroked rectangle; `fillPolyOp` is one `fillPoly` helper call
(set fill color, move/line through the points, fill). -/
inductive PdfOp where
  | addPage
  | rectF (x y w h : ℚ) (fill : Rgb)
  | rectS (x y w h : ℚ)
  | rectFD (x y w h : ℚ) (fill : Rgb)
  | roundedRectF (x y w h : ℚ) (fill : Rgb)
  | textOp (tag : TextTag) (x y : ℚ)
  | lineOp (x1 y1 x2 y2 : ℚ)
  | fillPolyOp (pts : List (ℚ × ℚ)) (fill : Rgb)
deriving DecidableEq

/-- `baseX = centerX - sLength / 2` (lines 187, 191), exact-rational view. -/
def baseXQ (l scale : ℚ) : ℚ := pageWidthMM / 2 - l * scale / 2

/-- `baseY = centerY - sWidth / 2` with `centerY = 25 + drawAreaHeight / 2`
(lines 188, 192). -/
def baseYQ (w scale : ℚ) : ℚ := (25 + drawAreaHeight / 2) - w * scale / 2

/-- The `drawSurface` helper (lines 195-213): filled rectangle, white
stroked border, centered label and area texts. -/
def drawSurfaceOps (x y w h : ℚ) (color : String) (lbl : TextTag) : List PdfOp :=
  [ .rectF x y w h (colorChannels color),
    .rectS x y w h,
    .textOp lbl (x + w / 2) (y + h / 2 - 2),
    .textOp .surfArea (x + w / 2) (y + h / 2 + 4) ]

/-- One row of the page-1 summary table (lines 302-314). -/
def rowOps (color : String) (name : TextTag) (y : ℚ) : List PdfOp :=
  [ .rectF (marginP1 + 3) (y - 5/2) 8 4 (colorChannels color),
    .textOp name (marginP1 + 15) y,
    .textOp .rowDims (marginP1 + 55) y,
    .textOp .rowArea (marginP1 + 100) y,
    .textOp .rowQty (marginP1 + 130) y,
    .textOp .rowTot (marginP1 + 150) y ]

/-- One row of the page-2 legend (lines 502-511). -/
def legendRowOps (color : String) (name : TextTag) (y : ℚ) : List PdfOp :=
  [ .rectF marginP1 (y - 5/2) 12 5 (colorChannels color),
    .textOp name (marginP1 + 16) y,
    .textOp .legArea (marginP1 + 70) y ]

/-- Page 1 of the export (lines 153-360): the unfolded layout, the optional
sfido strips, fold lines, the summary table, the optional sfido block, the
grand-total box and the footer. `scale` is the value computed at lines
176-178 (a float computation, modelled separately by `p1Scale`); all y
positions below 195 are the concrete values the running `yPos` takes. -/
def page1Ops (l w d s : ℚ) (cb cl cs cf : String) (scale : ℚ) : List PdfOp :=
  [ .textOp .titolo1 marginP1 17,
    .textOp .data1 (pageWidthMM - marginP1 - 20) 17 ]
  ++ drawSurfaceOps (baseXQ l scale) (baseYQ w scale) (l * scale) (w * scale) cb .lblBase
  ++ drawSurfaceOps (baseXQ l scale) (baseYQ w scale - d * scale) (l * scale) (d * scale) cl .lblParLunga
  ++ drawSurfaceOps (baseXQ l scale) (baseYQ w scale + w * scale) (l * scale) (d * scale) cl .lblParLunga
  ++ drawSurfaceOps (baseXQ l scale - d * scale) (baseYQ w scale) (d * scale) (w * scale) cs .lblPCorta
  ++ drawSurfaceOps (baseXQ l scale + l * scale) (baseYQ w scale) (d * scale) (w * scale) cs .lblPCorta
  ++ (if 0 < s ∧ 2 < s * scale then
        [ .rectFD (baseXQ l scale) (baseYQ w scale - d * scale - s * scale) (l * scale) (s * scale) (colorChannels cf),
          .rectFD (baseXQ l scale) (baseYQ w scale + w * scale + d * scale) (l * scale) (s * scale) (colorChannels cf),
          .rectFD (baseXQ l scale - d * scale - s * scale) (baseYQ w scale) (s * scale) (w * scale) (colorChannels cf),
          .rectFD (baseXQ l scale + l * scale + d * scale) (baseYQ w scale) (s * scale) (w * scale) (colorChannels cf) ]
        ++ (if 6 < s * scale then
              [ .textOp .sfidoStripLbl (baseXQ l scale + l * scale / 2) (baseYQ w scale - d * scale - s * scale / 2),
                .textOp .sfidoStripLbl (baseXQ l scale + l * scale / 2) (baseYQ w scale + w * scale + d * scale + s * scale / 2 + 1) ]
            else [])
      else [])
  ++ [ .lineOp (baseXQ l scale) (baseYQ w scale) (baseXQ l scale + l * scale) (baseYQ w scale),
       .lineOp (baseXQ l scale) (baseYQ w scale + w * scale) (baseXQ l scale + l * scale) (baseYQ w scale + w * scale),
       .lineOp (baseXQ l scale) (baseYQ w scale) (baseXQ l scale) (baseYQ w scale + w * scale),
       .lineOp (baseXQ l scale + l * scale) (baseYQ w scale) (baseXQ l scale + l * scale) (baseYQ w scale + w * scale) ]
  ++ [ .textOp .riepilogo marginP1 195,
       .rectF marginP1 198 (pageWidthMM - marginP1 * 2) 6 (some 241, some 245, some 249),
       .textOp .colSuperficie (marginP1 + 15) 201,
       .textOp .colDimensioni (marginP1 + 55) 201,
       .textOp .colArea (marginP1 + 100) 201,
       .textOp .colQta (marginP1 + 130) 201,
       .textOp .colTotale (marginP1 + 150) 201 ]
  ++ rowOps cb .rowBase 207 ++ rowOps cl .rowParLunghe 212 ++ rowOps cs .rowParCorte 217
  ++ [ .lineOp marginP1 222 (pageWidthMM - marginP1) 222,
       .textOp .subtotLbl (marginP1 + 55) 226,
       .textOp .subtotVal (marginP1 + 150) 226 ]
  ++ (if 0 < s then
        [ .rectF marginP1 231 (pageWidthMM - marginP1 * 2) 18 (some 254, some 243, some 199),
          .textOp .sfidoHeader (marginP1 + 5) 236,
          .textOp .sfidoLunghe (marginP1 + 5) 242,
          .textOp .sfidoCorte (marginP1 + 5) 247,
          .textOp .sfidoTotale (marginP1 + 120) 244 ]
      else [])
  ++ [ .roundedRectF marginP1 (if 0 < s then 256 else 234) (pageWidthMM - marginP1 * 2) 16 (some 30, some 41, some 59),
       .textOp .totLine (marginP1 + 5) ((if 0 < s then 256 else 234) + 6),
       .textOp .totLbl (marginP1 + 5) ((if 0 < s then 256 else 234) + 12),
       .textOp .totVal (marginP1 + 45) ((if 0 < s then 256 else 234) + 12),
       .textOp .footer1 (pageWidthMM / 2) 292 ]

/-- The projector of page 2 instantiated with its page constants
`isoCenterX = pageWidth / 2`, `isoCenterY = 130` (lines 388-393). -/
def isoPt (c30 s30 x y z : ℚ) : ℚ × ℚ := toIso c30 s30 (pageWidthMM / 2) 130 x y z

/-- Vertex `A = toIso(-sL/2, 0, -sW/2)` with `sL = length * 16`,
`sW = width * 16` (lines 383-397). -/
def vtxA (l w c30 s30 : ℚ) : ℚ × ℚ := isoPt c30 s30 (-(l * 16) / 2) 0 (-(w * 16) / 2)

/-- Vertex `B = toIso(sL/2, 0, -sW/2)`. -/
def vtxB (l w c30 s30 : ℚ) : ℚ × ℚ := isoPt c30 s30 (l * 16 / 2) 0 (-(w * 16) / 2)

/-- Vertex `C = toIso(sL/2, 0, sW/2)`. -/
def vtxC (l w c30 s30 : ℚ) : ℚ × ℚ := isoPt c30 s30 (l * 16 / 2) 0 (w * 16 / 2)

/-- Vertex `D = toIso(-sL/2, 0, sW/2)`. -/
def vtxD (l w c30 s30 : ℚ) : ℚ × ℚ := isoPt c30 s30 (-(l * 16) / 2) 0 (w * 16 / 2)

/-- Vertex `E = toIso(-sL/2, sD, -sW/2)` with `sD = depth * 16`. -/
def vtxE (l w d c30 s30 : ℚ) : ℚ × ℚ := isoPt c30 s30 (-(l * 16) / 2) (d * 16) (-(w * 16) / 2)

/-- Vertex `F = toIso(sL/2, sD, -sW/2)`. -/
def vtxF (l w d c30 s30 : ℚ) : ℚ × ℚ := isoPt c30 s30 (l * 16 / 2) (d * 16) (-(w * 16) / 2)

/-- Vertex `G = toIso(sL/2, sD, sW/2)`. -/
def vtxG (l w d c30 s30 : ℚ) : ℚ × ℚ := isoPt c30 s30 (l * 16 / 2) (d * 16) (w * 16 / 2)

/-- Vertex `H = toIso(-sL/2, sD, sW/2)`. -/
def vtxH (l w d c30 s30 : ℚ) : ℚ × ℚ := isoPt c30 s30 (-(l * 16) / 2) (d * 16) (w * 16 / 2)

/-- Sfido rim vertex `E_out = toIso(-sL/2, sD, -sW/2 - sSfidoIso)` with
`sSfidoIso = sfido * 16` (lines 442-451). -/
def vtxEOut (l w d s c30 s30 : ℚ) : ℚ × ℚ :=
  isoPt c30 s30 (-(l * 16) / 2) (d * 16) (-(w * 16) / 2 - s * 16)

/-- Sfido rim vertex `F_out`. -/
def vtxFOut (l w d s c30 s30 : ℚ) : ℚ × ℚ :=
  isoPt c30 s30 (l * 16 / 2) (d * 16) (-(w * 16) / 2 - s * 16)

/-- Sfido rim vertex `G_out`. -/
def vtxGOut (l w d s c30 s30 : ℚ) : ℚ × ℚ :=
  isoPt c30 s30 (l * 16 / 2) (d * 16) (w * 16 / 2 + s * 16)

/-- Sfido rim vertex `H_out`. -/
def vtxHOut (l w d s c30 s30 : ℚ) : ℚ × ℚ :=
  isoPt c30 s30 (-(l * 16) / 2) (d * 16) (w * 16 / 2 + s * 16)

/-- Sfido rim vertex `E_side`. -/
def vtxESide (l w d s c30 s30 : ℚ) : ℚ × ℚ :=
  isoPt c30 s30 (-(l * 16) / 2 - s * 16) (d * 16) (-(w * 16) / 2)

/-- Sfido rim vertex `F_side`. -/
def vtxFSide (l w d s c30 s30 : ℚ) : ℚ × ℚ :=
  isoPt c30 s30 (l * 16 / 2 + s * 16) (d * 16) (-(w * 16) / 2)

/-- Sfido rim vertex `G_side`. -/
def vtxGSide (l w d s c30 s30 : ℚ) : ℚ × ℚ :=
  isoPt c30 s30 (l * 16 / 2 + s * 16) (d * 16) (w * 16 / 2)

/-- Sfido rim vertex `H_side`. -/
def vtxHSide (l w d s c30 s30 : ℚ) : ℚ × ℚ :=
  isoPt c30 s30 (-(l * 16) / 2 - s * 16) (d * 16) (w * 16 / 2)

/-- The four sfido quads of page 2 (lines 453-463): points and fill of
each `fillPoly` call, in source order. -/
def sfidoQuadFills (l w d s : ℚ) (cf : String) (c30 s30 : ℚ) :
    List (List (ℚ × ℚ) × Rgb) :=
  [ ([vtxE l w d c30 s30, vtxF l w d c30 s30, vtxFOut l w d s c30 s30, vtxEOut l w d s c30 s30],
      darken 30 (colorChannels cf)),
    ([vtxE l w d c30 s30, vtxESide l w d s c30 s30, vtxHSide l w d s c30 s30, vtxH l w d c30 s30],
      darken 15 (colorChannels cf)),
    ([vtxF l w d c30 s30, vtxG l w d c30 s30, vtxGSide l w d s c30 s30, vtxFSide l w d s c30 s30],
      lighten 15 (colorChannels cf)),
    ([vtxH l w d c30 s30, vtxHOut l w d s c30 s30, vtxGOut l w d s c30 s30, vtxG l w d c30 s30],
      colorChannels cf) ]

/-- Page 2 of the export (lines 364-533): titles, the five solid faces in
painter order, the optional sfido quads and their outer borders, the
excavation edges, the legend (with the optional sfido row) and the
specifications box. -/
def page2Ops (l w d s : ℚ) (cb cl cs cf : String) (c30 s30 : ℚ) : List PdfOp :=
  [ .textOp .titolo2 marginP1 17,
    .textOp .data2 (pageWidthMM - marginP1 - 20) 17,
    .fillPolyOp [vtxA l w c30 s30, vtxB l w c30 s30, vtxF l w d c30 s30, vtxE l w d c30 s30]
      (colorChannels cl),
    .fillPolyOp [vtxA l w c30 s30, vtxD l w c30 s30, vtxH l w d c30 s30, vtxE l w d c30 s30]
      (colorChannels cs),
    .fillPolyOp [vtxA l w c30 s30, vtxB l w c30 s30, vtxC l w c30 s30, vtxD l w c30 s30]
      (colorChannels cb),
    .fillPolyOp [vtxB l w c30 s30, vtxC l w c30 s30, vtxG l w d c30 s30, vtxF l w d c30 s30]
      (lighten 30 (colorChannels cs)),
    .fillPolyOp [vtxD l w c30 s30, vtxC l w c30 s30, vtxG l w d c30 s30, vtxH l w d c30 s30]
      (lighten 20 (colorChannels cl)) ]
  ++ (if 0 < s then
        (sfidoQuadFills l w d s cf c30 s30).map (fun pr => .fillPolyOp pr.1 pr.2)
        ++ [ .lineOp (vtxEOut l w d s c30 s30).1 (vtxEOut l w d s c30 s30).2
               (vtxFOut l w d s c30 s30).1 (vtxFOut l w d s c30 s30).2,
             .lineOp (vtxFSide l w d s c30 s30).1 (vtxFSide l w d s c30 s30).2
               (vtxGSide l w d s c30 s30).1 (vtxGSide l w d s c30 s30).2,
             .lineOp (vtxGOut l w d s c30 s30).1 (vtxGOut l w d s c30 s30).2
               (vtxHOut l w d s c30 s30).1 (vtxHOut l w d s c30 s30).2,
             .lineOp (vtxHSide l w d s c30 s30).1 (vtxHSide l w d s c30 s30).2
               (vtxESide l w d s c30 s30).1 (vtxESide l w d s c30 s30).2 ]
      else [])
  ++ [ .lineOp (vtxA l w c30 s30).1 (vtxA l w c30 s30).2 (vtxB l w c30 s30).1 (vtxB l w c30 s30).2,
       .lineOp (vtxB l w c30 s30).1 (vtxB l w c30 s30).2 (vtxC l w c30 s30).1 (vtxC l w c30 s30).2,
       .lineOp (vtxC l w c30 s30).1 (vtxC l w c30 s30).2 (vtxD l w c30 s30).1 (vtxD l w c30 s30).2,
       .lineOp (vtxD l w c30 s30).1 (vtxD l w c30 s30).2 (vtxA l w c30 s30).1 (vtxA l w c30 s30).2,
       .lineOp (vtxA l w c30 s30).1 (vtxA l w c30 s30).2 (vtxE l w d c30 s30).1 (vtxE l w d c30 s30).2,
       .lineOp (vtxB l w c30 s30).1 (vtxB l w c30 s30).2 (vtxF l w d c30 s30).1 (vtxF l w d c30 s30).2,
       .lineOp (vtxC l w c30 s30).1 (vtxC l w c30 s30).2 (vtxG l w d c30 s30).1 (vtxG l w d c30 s30).2,
       .lineOp (vtxD l w c30 s30).1 (vtxD l w c30 s30).2 (vtxH l w d c30 s30).1 (vtxH l w d c30 s30).2,
       .lineOp (vtxE l w d c30 s30).1 (vtxE l w d c30 s30).2 (vtxF l w d c30 s30).1 (vtxF l w d c30 s30).2,
       .lineOp (vtxF l w d c30 s30).1 (vtxF l w d c30 s30).2 (vtxG l w d c30 s30).1 (vtxG l w d c30 s30).2,
       .lineOp (vtxG l w d c30 s30).1 (vtxG l w d c30 s30).2 (vtxH l w d c30 s30).1 (vtxH l w d c30 s30).2,
       .lineOp (vtxH l w d c30 s30).1 (vtxH l w d c30 s30).2 (vtxE l w d c30 s30).1 (vtxE l w d c30 s30).2 ]
  ++ [ .textOp .legenda marginP1 220 ]
  ++ legendRowOps cb .legBase 228 ++ legendRowOps cl .legParLunghe 235
  ++ legendRowOps cs .legParCorte 242
  ++ (if 0 < s then legendRowOps cf .legSfido 249 else [])
  ++ [ .roundedRectF marginP1 (if 0 < s then 261 else 254) (pageWidthMM - marginP1 * 2) 20
         (some 248, some 250, some 252),
       .textOp .dimScavo (marginP1 + 5) ((if 0 < s then 261 else 254) + 7),
       .textOp .dimLWD (marginP1 + 45) ((if 0 < s then 261 else 254) + 7),
       .textOp .volume (marginP1 + 120) ((if 0 < s then 261 else 254) + 7),
       .textOp .totTNT2 (marginP1 + 5) ((if 0 < s then 261 else 254) + 14),
       .textOp .footer2 (pageWidthMM / 2) 292 ]

/-- The whole export (sfido variant, lines 131-535): page 1, the single
unconditional `pdf.addPage()` (line 363), page 2. -/
def handleExportPDF (l w d s : ℚ) (cb cl cs cf : String) (scale c30 s30 : ℚ) : List PdfOp :=
  page1Ops l w d s cb cl cs cf scale ++ PdfOp.addPage :: page2Ops l w d s cb cl cs cf c30 s30

/-- Recognizes the `pdf.addPage()` operation. -/
def isAddPage : PdfOp → Bool
  | .addPage => true
  | _ => false

/-- Recognizes a `'FD'`-style rectangle; in the whole export these are
exactly the four sfido strips of page 1 (lines 242-251). -/
def isFD : PdfOp → Bool
  | .rectFD _ _ _ _ _ => true
  | _ => false

/-- Recognizes a `fillPoly` call of page 2. -/
def isFillPoly : PdfOp → Bool
  | .fillPolyOp _ _ => true
  | _ => false

/-- Recognizes the centered `'SFIDO'` strip labels (lines 258-259). -/
def isStripLabel : PdfOp → Bool
  | .textOp .sfidoStripLbl _ _ => true
  | _ => false

/-- Text call sites that exist only for the sfido overlap feature: the
strip labels, the page-1 sfido summary block, the page-2 legend row. -/
def isSfidoText : TextTag → Bool
  | .sfidoStripLbl | .sfidoHeader | .sfidoLunghe | .sfidoCorte | .sfidoTotale | .legSfido => true
  | _ => false

/-- Operation drawn only for the sfido overlap feature (strip rectangles
or sfido-specific texts). -/
def isSfidoOp : PdfOp → Bool
  | .rectFD _ _ _ _ _ => true
  | .textOp t _ _ => isSfidoText t
  | _ => false

/-- The points and fill of a `fillPoly` operation. -/
def fillData : PdfOp → Option (List (ℚ × ℚ) × Rgb)
  | .fillPolyOp pts rgb => some (pts, rgb)
  | _ => none

/-- A filled operation at least one of whose channels is NaN. -/
def hasNanChannel : Rgb → Bool
  | (none, _, _) => true
  | (_, none, _) => true
  | (_, _, none) => true
  | _ => false

/-- Recognizes a filled draw call with a NaN color channel. -/
def usesNanFill : PdfOp → Bool
  | .rectF _ _ _ _ rgb => hasNanChannel rgb
  | .rectFD _ _ _ _ rgb => hasNanChannel rgb
  | .roundedRectF _ _ _ _ rgb => hasNanChannel rgb
  | .fillPolyOp _ rgb => hasNanChannel rgb
  | _ => false

/-- C10: swapping `length` and `width` leaves `totalArea` and
`totalAreaConSfido` unchanged. -/
theorem c10_swap_symmetry (l w d s : ℚ) (cb cl cs : String) :
    totalArea ⟨w, l, d, s⟩ cb cl cs = totalArea ⟨l, w, d, s⟩ cb cl cs ∧
    totalAreaConSfido ⟨w, l, d, s⟩ cb cl cs = totalAreaConSfido ⟨l, w, d, s⟩ cb cl cs := by
  constructor <;>
    simp [totalArea, totalAreaConSfido, surfaces, sfidoData] <;> ring

/-- Counting distributes over a two-branch conditional list. -/
theorem countP_ite {α : Type} (p : α → Bool) (c : Prop) [Decidable c] (A B : List α) :
    (if c then A else B).countP p = if c then A.countP p else B.countP p := by
  split_ifs <;> rfl

/-- `filterMap` distributes over a two-branch conditional list. -/
theorem filterMap_ite {α β : Type} (f : α → Option β) (c : Prop) [Decidable c]
    (A B : List α) :
    (if c then A else B).filterMap f = if c then A.filterMap f else B.filterMap f := by
  split_ifs <;> rfl

/-- C5: one invocation of the export produces exactly 2 pages for every
input (the trace holds exactly one unconditional `addPage`, so the
document has the initial page plus one more). -/
theorem c5_two_pages (l w d s : ℚ) (cb cl cs cf : String) (scale c30 s30 : ℚ) :
    (handleExportPDF l w d s cb cl cs cf scale c30 s30).countP isAddPage = 1 := by
  simp [handleExportPDF, page1Ops, page2Ops, drawSurfaceOps, rowOps, legendRowOps,
    sfidoQuadFills, countP_ite, List.countP_append, List.countP_cons, isAddPage]

set_option maxRecDepth 16384 in
/-- C6: the face compositor emits the five solid faces in exactly the
fixed order back long wall, left short wall, base, right short wall
(+30 per channel, clamped to 255), front long wall (+20 per channel,
clamped to 255); the only other filled polygons are the sfido quads,
after them, when sfido is positive. -/
theorem c6_face_order (l w d s : ℚ) (cb cl cs cf : String) (scale c30 s30 : ℚ) :
    (handleExportPDF l w d s cb cl cs cf scale c30 s30).filterMap fillData =
      [ ([vtxA l w c30 s30, vtxB l w c30 s30, vtxF l w d c30 s30, vtxE l w d c30 s30],
          colorChannels cl),
        ([vtxA l w c30 s30, vtxD l w c30 s30, vtxH l w d c30 s30, vtxE l w d c30 s30],
          colorChannels cs),
        ([vtxA l w c30 s30, vtxB l w c30 s30, vtxC l w c30 s30, vtxD l w c30 s30],
          colorChannels cb),
        ([vtxB l w c30 s30, vtxC l w c30 s30, vtxG l w d c30 s30, vtxF l w d c30 s30],
          lighten 30 (colorChannels cs)),
        ([vtxD l w c30 s30, vtxC l w c30 s30, vtxG l w d c30 s30, vtxH l w d c30 s30],
          lighten 20 (colorChannels cl)) ]
      ++ (if 0 < s then sfidoQuadFills l w d s cf c30 s30 else []) := by
  simp only [handleExportPDF, page1Ops, page2Ops, drawSurfaceOps, rowOps, legendRowOps,
    sfidoQuadFills, filterMap_ite, List.filterMap_append, List.filterMap_cons,
    List.filterMap_nil, List.map_cons, List.map_nil, fillData, List.append_nil,
    List.nil_append, List.append_assoc, List.cons_append]
  split_ifs <;> simp

/-- The number of `'FD'` strip rectangles in the trace, as a function of
the guard `sfido > 0 && sSfido > 2` (line 232). -/
theorem countP_isFD (l w d s : ℚ) (cb cl cs cf : String) (scale c30 s30 : ℚ) :
    (handleExportPDF l w d s cb cl cs cf scale c30 s30).countP isFD =
      if 0 < s ∧ 2 < s * scale then 4 else 0 := by
  simp [handleExportPDF, page1Ops, page2Ops, drawSurfaceOps, rowOps, legendRowOps,
    sfidoQuadFills, countP_ite, List.countP_append, List.countP_cons, isFD]

/-- The number of `'SFIDO'` strip labels in the trace, as a function of the
guards at lines 232 and 257. -/
theorem countP_isStripLabel (l w d s : ℚ) (cb cl cs cf : String) (scale c30 s30 : ℚ) :
    (handleExportPDF l w d s cb cl cs cf scale c30 s30).countP isStripLabel =
      if 0 < s ∧ 2 < s * scale then (if 6 < s * scale then 2 else 0) else 0 := by
  simp [handleExportPDF, page1Ops, page2Ops, drawSurfaceOps, rowOps, legendRowOps,
    sfidoQuadFills, countP_ite, List.countP_append, List.countP_cons, isStripLabel]

/-- C8: with overlap mode active (`sfido > 0`), the four overlap strips
are drawn iff the scaled strip width exceeds 2 page units, and the two
centered strip labels are shown iff it exceeds 6 page units. -/
theorem c8_strip_thresholds (l w d s : ℚ) (cb cl cs cf : String) (scale c30 s30 : ℚ)
    (hs : 0 < s) :
    ((handleExportPDF l w d s cb cl cs cf scale c30 s30).countP isFD = 4 ↔ 2 < s * scale) ∧
    ((handleExportPDF l w d s cb cl cs cf scale c30 s30).countP isStripLabel = 2 ↔
      6 < s * scale) := by
  rw [countP_isFD, countP_isStripLabel]
  constructor
  · by_cases h2 : 2 < s * scale <;> simp [h2, hs]
  · by_cases h6 : 6 < s * scale
    · have h2 : 2 < s * scale := by linarith
      simp [h2, h6, hs]
    · by_cases h2 : 2 < s * scale <;> simp [h2, h6, hs]

/-- C8 witness at `sfido = 1`, `scale = 3`: strips are drawn (3 > 2) and
labels are suppressed (3 ≤ 6). -/
theorem c8_strip_thresholds_witness :
    (0:ℚ) < 1 ∧
    (((handleExportPDF 4 3 (5/2) 1 "#3b82f6" "#ef4444" "#10b981" "#f59e0b" 3 0 0).countP
        isFD = 4 ↔ (2:ℚ) < 1 * 3) ∧
      ((handleExportPDF 4 3 (5/2) 1 "#3b82f6" "#ef4444" "#10b981" "#f59e0b" 3 0 0).countP
        isStripLabel = 2 ↔ (6:ℚ) < 1 * 3)) :=
  ⟨by norm_num,
    c8_strip_thresholds 4 3 (5/2) 1 "#3b82f6" "#ef4444" "#10b981" "#f59e0b" 3 0 0
      (by norm_num)⟩

/-- The number of sfido-only operations in the trace, as a function of the
guards. -/
theorem countP_isSfidoOp (l w d s : ℚ) (cb cl cs cf : String) (scale c30 s30 : ℚ) :
    (handleExportPDF l w d s cb cl cs cf scale c30 s30).countP isSfidoOp =
      (if 0 < s ∧ 2 < s * scale then (if 6 < s * scale then 6 else 4) else 0) +
        (if 0 < s then 5 else 0) := by
  simp [handleExportPDF, page1Ops, page2Ops, drawSurfaceOps, rowOps, legendRowOps,
    sfidoQuadFills, countP_ite, List.countP_append, List.countP_cons, isSfidoOp, isSfidoText]
  split_ifs <;> norm_num

/-- The number of filled polygons in the trace: the five faces, plus the
four sfido quads when sfido is positive. -/
theorem countP_isFillPoly (l w d s : ℚ) (cb cl cs cf : String) (scale c30 s30 : ℚ) :
    (handleExportPDF l w d s cb cl cs cf scale c30 s30).countP isFillPoly =
      if 0 < s then 9 else 5 := by
  simp [handleExportPDF, page1Ops, page2Ops, drawSurfaceOps, rowOps, legendRowOps,
    sfidoQuadFills, countP_ite, List.countP_append, List.countP_cons, isFillPoly]
  split_ifs <;> norm_num

/-- C9: with `sfido = 0` the export draws no overlap strip and emits no
overlap label, summary text or legend row on either page, and the only
filled polygons are the five faces (no sfido quads). -/
theorem c9_zero_sfido_suppression (l w d : ℚ) (cb cl cs cf : String) (scale c30 s30 : ℚ) :
    (handleExportPDF l w d 0 cb cl cs cf scale c30 s30).countP isSfidoOp = 0 ∧
    (handleExportPDF l w d 0 cb cl cs cf scale c30 s30).countP isFillPoly = 5 := by
  rw [countP_isSfidoOp, countP_isFillPoly]
  norm_num

/-- C7 counterexample: the export does not fail fast on a malformed color
string. `"#1234567"` is malformed yet decomposes into three in-range
channels, and with the malformed `"#zzzzzz"` as the bottom color the
export still runs to completion (both pages emitted) while passing a
draw call a fill all of whose channels are NaN. -/
theorem c7_counterexample :
    wellFormedColor "#1234567" = false ∧
    colorChannels "#1234567" = (some 18, some 52, some 86) ∧
    wellFormedColor "#zzzzzz" = false ∧
    colorChannels "#zzzzzz" = (none, none, none) ∧
    (handleExportPDF 4 3 (5/2) 0 "#zzzzzz" "#ef4444" "#10b981" "#f59e0b" 10 0 0).countP
      isAddPage = 1 ∧
    0 < (handleExportPDF 4 3 (5/2) 0 "#zzzzzz" "#ef4444" "#10b981" "#f59e0b" 10 0 0).countP
      usesNanFill := by
  refine ⟨by decide, by decide, by decide, by decide, ?_, ?_⟩ <;> decide

/-- Each hex digit value is below 16. -/
theorem hexVal_lt_16 (ch : Char) (v : ℕ) (h : hexVal ch = some v) : v < 16 := by
  unfold hexVal at h
  split_ifs at h <;> (injection h with h; omega)

/-- `parseIntHex` on two hex digits is `d0 * 16 + d1`. -/
theorem parseIntHex_pair (a b : Char) (va vb : ℕ)
    (ha : hexVal a = some va) (hb : hexVal b = some vb) :
    parseIntHex [a, b] = some ((va : ℤ) * 16 + vb) := by
  unfold parseIntHex
  simp [List.takeWhile, ha, hb]

/-- C7 amended: the export performs no color validation. Whenever the
color string is `#` followed by 6 hex digits the positional decomposition
yields three integer channels in 0–255; and a malformed string is not
rejected: the export still emits its complete two-page trace (shown here
with the non-hex `"#zzzzzz"`, whose channels all parse to NaN). -/
theorem c7_color_parsing :
    (∀ c : String, wellFormedColor c = true →
      ∃ r g b : ℤ, colorChannels c = (some r, some g, some b) ∧
        0 ≤ r ∧ r ≤ 255 ∧ 0 ≤ g ∧ g ≤ 255 ∧ 0 ≤ b ∧ b ≤ 255) ∧
    (∀ l w d s : ℚ, ∀ cl cs cf : String, ∀ scale c30 s30 : ℚ,
      colorChannels "#zzzzzz" = (none, none, none) ∧
      (handleExportPDF l w d s "#zzzzzz" cl cs cf scale c30 s30).countP isAddPage = 1) := by
  constructor
  · intro c hc
    unfold wellFormedColor at hc
    simp only [Bool.and_eq_true, beq_iff_eq, List.all_eq_true] at hc
    obtain ⟨⟨hlen, _⟩, hall⟩ := hc
    rcases hl : c.toList with _ | ⟨a0, _ | ⟨a1, _ | ⟨a2, _ | ⟨a3, _ | ⟨a4, _ | ⟨a5, _ | ⟨a6, rest⟩⟩⟩⟩⟩⟩⟩ <;>
      rw [hl] at hlen <;> simp at hlen
    rw [hl] at hall
    have hrest : rest = [] := by
      cases rest with
      | nil => rfl
      | cons x xs => simp at hlen
    subst hrest
    have h1 := hall a1 (by simp)
    have h2 := hall a2 (by simp)
    have h3 := hall a3 (by simp)
    have h4 := hall a4 (by simp)
    have h5 := hall a5 (by simp)
    have h6 := hall a6 (by simp)
    obtain ⟨v1, hv1⟩ := Option.isSome_iff_exists.mp h1
    obtain ⟨v2, hv2⟩ := Option.isSome_iff_exists.mp h2
    obtain ⟨v3, hv3⟩ := Option.isSome_iff_exists.mp h3
    obtain ⟨v4, hv4⟩ := Option.isSome_iff_exists.mp h4
    obtain ⟨v5, hv5⟩ := Option.isSome_iff_exists.mp h5
    obtain ⟨v6, hv6⟩ := Option.isSome_iff_exists.mp h6
    have b1 := hexVal_lt_16 a1 v1 hv1
    have b2 := hexVal_lt_16 a2 v2 hv2
    have b3 := hexVal_lt_16 a3 v3 hv3
    have b4 := hexVal_lt_16 a4 v4 hv4
    have b5 := hexVal_lt_16 a5 v5 hv5
    have b6 := hexVal_lt_16 a6 v6 hv6
    refine ⟨(v1 : ℤ) * 16 + v2, (v3 : ℤ) * 16 + v4, (v5 : ℤ) * 16 + v6, ?_, ?_, ?_, ?_, ?_, ?_, ?_⟩
    · unfold colorChannels slicePair
      rw [hl]
      simp only [List.drop, List.take]
      rw [parseIntHex_pair a1 a2 v1 v2 hv1 hv2, parseIntHex_pair a3 a4 v3 v4 hv3 hv4,
        parseIntHex_pair a5 a6 v5 v6 hv5 hv6]
    all_goals omega
  · intro l w d s cl cs cf scale c30 s30
    refine ⟨by decide, ?_⟩
    simp [handleExportPDF, page1Ops, page2Ops, drawSurfaceOps, rowOps, legendRowOps,
      sfidoQuadFills, countP_ite, List.countP_append, List.countP_cons, isAddPage]

/-- C7 amended witness: the default bottom color `#3b82f6` is well formed
and decomposes into in-range channels. -/
theorem c7_color_parsing_witness :
    wellFormedColor "#3b82f6" = true ∧
    (∃ r g b : ℤ, colorChannels "#3b82f6" = (some r, some g, some b) ∧
      0 ≤ r ∧ r ≤ 255 ∧ 0 ≤ g ∧ g ≤ 255 ∧ 0 ≤ b ∧ b ≤ 255) :=
  ⟨by decide, c7_color_parsing.1 "#3b82f6" (by decide)⟩

end GeoViz
